import Mathlib

/-!
Shallow embedding of the counter program (`src/src/lib.rs`): instruction
codec (`CounterInstruction::unpack` and its borsh-derived serialization),
the two state-transition handlers (`process_initialize_counter`,
`process_increment_counter`) and the dispatcher (`process_instruction`).
Bytes are `Nat`s below 256; 64-bit values are `Nat`s below `2 ^ 64` with
overflow made explicit via `checked_add_u64`.
-/

namespace CounterProgram

/-- The `ProgramError` variants the source code actually returns, plus the
error `next_account_info` raises when the account list is exhausted and the
error the `?` on a borsh (de)serialization failure produces. -/
inductive ProgramError where
  | InvalidInstructionData
  | IncorrectProgramId
  | InvalidAccountData
  | NotEnoughAccountKeys
  | BorshIoError
  deriving DecidableEq, Repr

/-- The fields of Solana's `AccountInfo` the program reads or writes:
address (`key`), recorded `owner`, `lamports` balance, and the mutable
byte buffer `data`.  Pubkeys are modelled as opaque `Nat` identities. -/
structure AccountInfo where
  key : Nat
  owner : Nat
  lamports : Nat
  data : List Nat
  deriving DecidableEq, Repr

/-- `enum CounterInstruction` from the source: variant 0 carries a `u64`
initial value, variant 1 carries no payload. -/
inductive CounterInstruction where
  | InitializeCounter (initial_value : Nat)
  | IncrementCounter
  deriving DecidableEq, Repr

/-- `struct CounterAccount { count: u64 }` from the source. -/
structure CounterAccount where
  count : Nat
  deriving DecidableEq, Repr

/-- Little-endian byte serialization of a `u64` (`u64::to_le_bytes` /
borsh serialization of a `u64` field): exactly 8 bytes. -/
def u64ToLeBytes (v : Nat) : List Nat :=
  [v % 256, v / 256 % 256, v / 256 ^ 2 % 256, v / 256 ^ 3 % 256,
   v / 256 ^ 4 % 256, v / 256 ^ 5 % 256, v / 256 ^ 6 % 256, v / 256 ^ 7 % 256]

/-- Little-endian decoding of a byte list (`u64::from_le_bytes`). -/
def leBytesToU64 : List Nat → Nat
  | [] => 0
  | b :: rest => b + 256 * leBytesToU64 rest

/-- `u64::checked_add`: `some (a + b)` when the sum fits in 64 bits,
`none` on overflow. -/
def checked_add_u64 (a b : Nat) : Option Nat :=
  if a + b < 2 ^ 64 then some (a + b) else none

/-- `CounterInstruction::unpack` from the source: `split_first` on the
input (erroring with `InvalidInstructionData` on an empty buffer), then
match on the variant byte.  Variant 0 requires the rest to convert into a
`[u8; 8]` (`try_into` fails, hence `InvalidInstructionData`, unless the
remaining length is exactly 8) and reads it little-endian; variant 1 needs
no additional data; any other byte is `InvalidInstructionData`. -/
def unpack (input : List Nat) : Except ProgramError CounterInstruction :=
  match input with
  | [] => Except.error ProgramError.InvalidInstructionData
  | variant :: rest =>
    match variant with
    | 0 =>
      if rest.length = 8 then
        Except.ok (CounterInstruction.InitializeCounter (leBytesToU64 rest))
      else
        Except.error ProgramError.InvalidInstructionData
    | 1 => Except.ok CounterInstruction.IncrementCounter
    | _ => Except.error ProgramError.InvalidInstructionData

/-- The borsh-derived `BorshSerialize` for `CounterInstruction`
(`#[derive(BorshSerialize, ...)]` in the source): a one-byte variant tag
followed by the variant's fields in little-endian. -/
def CounterInstruction.pack : CounterInstruction → List Nat
  | CounterInstruction.InitializeCounter v => 0 :: u64ToLeBytes v
  | CounterInstruction.IncrementCounter => [1]

/-- `CounterAccount::try_from_slice`: borsh deserialization of a `u64`
field consuming the whole slice, so it succeeds exactly when the buffer is
8 bytes long; otherwise the `?` in the source converts the failure into a
borsh io `ProgramError`. -/
def try_from_slice_counter (data : List Nat) : Except ProgramError CounterAccount :=
  if data.length = 8 then Except.ok { count := leBytesToU64 data }
  else Except.error ProgramError.BorshIoError

/-- `counter_data.serialize(&mut &mut data[..])`: borsh writes the 8
little-endian bytes of `count` at the start of the buffer, failing when the
buffer is shorter than 8 bytes and leaving any trailing bytes unchanged. -/
def serialize_counter_into (c : CounterAccount) (buf : List Nat) :
    Except ProgramError (List Nat) :=
  if 8 ≤ buf.length then Except.ok (u64ToLeBytes c.count ++ buf.drop 8)
  else Except.error ProgramError.BorshIoError

/-- The argument record of `system_instruction::create_account`: funding
source, new address, lamports to transfer, bytes to allocate, and the new
owner identity. -/
structure SystemInstruction where
  from_pubkey : Nat
  to_pubkey : Nat
  lamports : Nat
  space : Nat
  owner : Nat
  deriving DecidableEq, Repr

/-- `system_instruction::create_account(payer, new, lamports, space, owner)`. -/
def create_account (from_pubkey to_pubkey lamports space owner : Nat) :
    SystemInstruction :=
  { from_pubkey := from_pubkey, to_pubkey := to_pubkey, lamports := lamports,
    space := space, owner := owner }

/-- Modelled from the spec: the external collaborators the handler calls
into (section 6 of the spec) — the rent calculator
`minimum_balance(size_in_bytes) -> amount` and the atomic account
allocator, whose outcome for a given `create_account` request is either
success (`none`) or a propagated error (`some e`). -/
structure Env where
  minimum_balance : Nat → Nat
  invoke_result : SystemInstruction → Option ProgramError

/-- `process_initialize_counter` from the source: take the counter, payer
and system-program accounts off the iterator, compute the rent-exempt
minimum for `account_space = 8`, invoke `create_account(payer, counter,
required_lamports, 8, program_id)`, then serialize
`CounterAccount { count: initial_value }` into the freshly allocated
buffer.  On success of the invoke, the allocator (modelled from the spec:
the external account allocator is atomic and out of scope of the source)
has transferred the lamports, allocated `account_space` zeroed bytes and
assigned ownership to `program_id`.  The result carries the final account
states and the list of `create_account` requests issued. -/
def process_initialize_counter (env : Env) (program_id : Nat)
    (accounts : List AccountInfo) (initial_value : Nat) :
    Except ProgramError Unit × List AccountInfo × List SystemInstruction :=
  match accounts with
  | counter_account :: payer_account :: system_program :: rest =>
    let account_space : Nat := 8
    let required_lamports := env.minimum_balance account_space
    let ix := create_account payer_account.key counter_account.key
      required_lamports account_space program_id
    match env.invoke_result ix with
    | some e =>
      (Except.error e, counter_account :: payer_account :: system_program :: rest, [ix])
    | none =>
      let created : AccountInfo :=
        { counter_account with
            owner := program_id
            lamports := counter_account.lamports + required_lamports
            data := List.replicate account_space 0 }
      let payer2 : AccountInfo :=
        { payer_account with lamports := payer_account.lamports - required_lamports }
      match serialize_counter_into { count := initial_value } created.data with
      | Except.error e =>
        (Except.error e, created :: payer2 :: system_program :: rest, [ix])
      | Except.ok newData =>
        (Except.ok (), { created with data := newData } :: payer2 :: system_program :: rest, [ix])
  | _ => (Except.error ProgramError.NotEnoughAccountKeys, accounts, [])

/-- `process_increment_counter` from the source: take the counter account,
check `counter_account.owner != program_id` (rejecting with
`IncorrectProgramId`), deserialize the data as a `CounterAccount`,
`checked_add(1)` (rejecting with `InvalidAccountData` on overflow), and
serialize the updated record back in place.  The second component is the
final state of the account list; on every error path no account has been
mutated. -/
def process_increment_counter (program_id : Nat) (accounts : List AccountInfo) :
    Except ProgramError Unit × List AccountInfo :=
  match accounts with
  | [] => (Except.error ProgramError.NotEnoughAccountKeys, [])
  | counter_account :: rest =>
    if counter_account.owner ≠ program_id then
      (Except.error ProgramError.IncorrectProgramId, counter_account :: rest)
    else
      match try_from_slice_counter counter_account.data with
      | Except.error e => (Except.error e, counter_account :: rest)
      | Except.ok counter_data =>
        match checked_add_u64 counter_data.count 1 with
        | none => (Except.error ProgramError.InvalidAccountData, counter_account :: rest)
        | some c =>
          match serialize_counter_into { count := c } counter_account.data with
          | Except.error e => (Except.error e, counter_account :: rest)
          | Except.ok newData =>
            (Except.ok (), { counter_account with data := newData } :: rest)

/-- `process_instruction` from the source: unpack the instruction data and
dispatch to the matching handler. -/
def process_instruction (env : Env) (program_id : Nat)
    (accounts : List AccountInfo) (instruction_data : List Nat) :
    Except ProgramError Unit × List AccountInfo × List SystemInstruction :=
  match unpack instruction_data with
  | Except.error e => (Except.error e, accounts, [])
  | Except.ok (CounterInstruction.InitializeCounter initial_value) =>
    process_initialize_counter env program_id accounts initial_value
  | Except.ok CounterInstruction.IncrementCounter =>
    let r := process_increment_counter program_id accounts
    (r.1, r.2, [])

/-- First account of a post-state, with an inert dummy for the (unreachable)
empty case. -/
def headAccount (l : List AccountInfo) : AccountInfo :=
  match l with
  | a :: _ => a
  | [] => { key := 0, owner := 0, lamports := 0, data := [] }

/-- A concrete environment for running the end-to-end scenario: rent is
100 lamports per byte and every `create_account` invocation succeeds. -/
def demoEnv : Env :=
  { minimum_balance := fun n => n * 100, invoke_result := fun _ => none }

/-- The counter account after dispatching an initialize instruction with
`initial_value = 42` (wire bytes `[0] ++ le64(42)`) for program identity 1
on fresh counter, payer and system-program accounts. -/
def scenarioAfterInit : AccountInfo :=
  headAccount (process_instruction demoEnv 1
    [{ key := 10, owner := 0, lamports := 0, data := [] },
     { key := 20, owner := 0, lamports := 10 ^ 9, data := [] },
     { key := 30, owner := 0, lamports := 1, data := [] }]
    (0 :: u64ToLeBytes 42)).2.1

/-- Dispatch one increment instruction (wire bytes `[1]`) against a single
counter account and return its final state. -/
def incrementOnce (program_id : Nat) (acct : AccountInfo) : AccountInfo :=
  headAccount (process_instruction demoEnv program_id [acct] [1]).2.1

/-- Iterate `incrementOnce`. -/
def incrementTimes (program_id : Nat) (acct : AccountInfo) : Nat → AccountInfo
  | 0 => acct
  | n + 1 => incrementTimes program_id (incrementOnce program_id acct) n

theorem u64ToLeBytes_length (v : Nat) : (u64ToLeBytes v).length = 8 := rfl

theorem u64ToLeBytes_drop8 (v : Nat) : (u64ToLeBytes v).drop 8 = [] := rfl

theorem leBytes_roundtrip (v : Nat) (h : v < 2 ^ 64) :
    leBytesToU64 (u64ToLeBytes v) = v := by
  simp only [u64ToLeBytes, leBytesToU64]
  norm_num
  omega

set_option maxRecDepth 100000

/-- C1: incrementing a counter account owned by the program whose stored
8-byte record holds `v < u64::MAX` succeeds and stores `v + 1`; in the
end-to-end scenario, initializing with 42 stores 42, one increment yields
43, and 41 further increments yield 84 (not 85: the claim's final figure is
off by one, since 43 + 41 = 84). -/
theorem increment_adds_one_and_scenario_84 :
    (∀ (pid : Nat) (acct : AccountInfo) (rest : List AccountInfo) (v : Nat),
        acct.owner = pid → acct.data = u64ToLeBytes v → v < 2 ^ 64 - 1 →
        process_increment_counter pid (acct :: rest) =
          (Except.ok (), { acct with data := u64ToLeBytes (v + 1) } :: rest))
    ∧ leBytesToU64 scenarioAfterInit.data = 42
    ∧ leBytesToU64 (incrementOnce 1 scenarioAfterInit).data = 43
    ∧ leBytesToU64 (incrementTimes 1 (incrementOnce 1 scenarioAfterInit) 41).data = 84 := by
  refine ⟨?_, by decide, by decide, by decide⟩
  intro pid acct rest v hown hdata hv
  have h64 : v < 2 ^ 64 := by omega
  have hrt := leBytes_roundtrip v h64
  have hadd : v + 1 < 18446744073709551616 := by omega
  simp [process_increment_counter, try_from_slice_counter, hdata, hown,
        u64ToLeBytes_length, hrt, checked_add_u64, hadd, serialize_counter_into,
        u64ToLeBytes_drop8]

/-- C1 witness: incrementing a program-owned account holding 7 succeeds and
stores 8. -/
theorem increment_adds_one_and_scenario_84_witness :
    process_increment_counter 1
        [{ key := 5, owner := 1, lamports := 0, data := u64ToLeBytes 7 }] =
      (Except.ok (), [{ key := 5, owner := 1, lamports := 0, data := u64ToLeBytes (7 + 1) }]) :=
  increment_adds_one_and_scenario_84.1 1
    { key := 5, owner := 1, lamports := 0, data := u64ToLeBytes 7 } [] 7 rfl rfl (by norm_num)

/-- C1 counterexample: after initializing with 42 and incrementing once
(reaching 43), 41 further increments leave the stored record at 84, not 85
as the claim states. -/
theorem scenario_42_then_42_increments_is_84_not_85 :
    leBytesToU64 (incrementTimes 1 (incrementOnce 1 scenarioAfterInit) 41).data = 84 ∧
    leBytesToU64 (incrementTimes 1 (incrementOnce 1 scenarioAfterInit) 41).data ≠ 85 :=
  ⟨by decide, by decide⟩

/-- C2: a successful initialize with value `v` leaves the counter account's
data buffer equal to exactly the 8 little-endian bytes of `v`, and decoding
that buffer yields `v` back. -/
theorem initialize_stores_le64 (env : Env) (pid : Nat)
    (counter payer sys : AccountInfo) (rest : List AccountInfo) (v : Nat)
    (hinv : env.invoke_result
        (create_account payer.key counter.key (env.minimum_balance 8) 8 pid) = none)
    (hv : v < 2 ^ 64) :
    (process_initialize_counter env pid (counter :: payer :: sys :: rest) v).1
        = Except.ok () ∧
    (headAccount
        (process_initialize_counter env pid (counter :: payer :: sys :: rest) v).2.1).data
        = u64ToLeBytes v ∧
    leBytesToU64 (headAccount
        (process_initialize_counter env pid (counter :: payer :: sys :: rest) v).2.1).data
        = v := by
  have hrt := leBytes_roundtrip v hv
  simp [process_initialize_counter, hinv, serialize_counter_into, headAccount, hrt]

/-- C2 witness: initializing with value 7 in the demo environment stores
the 8 little-endian bytes of 7 and reads back 7. -/
theorem initialize_stores_le64_witness :
    (process_initialize_counter demoEnv 1
        [{ key := 10, owner := 0, lamports := 0, data := [] },
         { key := 20, owner := 0, lamports := 10 ^ 9, data := [] },
         { key := 30, owner := 0, lamports := 1, data := [] }] 7).1 = Except.ok () ∧
    (headAccount (process_initialize_counter demoEnv 1
        [{ key := 10, owner := 0, lamports := 0, data := [] },
         { key := 20, owner := 0, lamports := 10 ^ 9, data := [] },
         { key := 30, owner := 0, lamports := 1, data := [] }] 7).2.1).data
      = u64ToLeBytes 7 ∧
    leBytesToU64 (headAccount (process_initialize_counter demoEnv 1
        [{ key := 10, owner := 0, lamports := 0, data := [] },
         { key := 20, owner := 0, lamports := 10 ^ 9, data := [] },
         { key := 30, owner := 0, lamports := 1, data := [] }] 7).2.1).data = 7 :=
  initialize_stores_le64 demoEnv 1
    { key := 10, owner := 0, lamports := 0, data := [] }
    { key := 20, owner := 0, lamports := 10 ^ 9, data := [] }
    { key := 30, owner := 0, lamports := 1, data := [] } [] 7 rfl (by norm_num)

/-- C3: decoding `[0] ++ le64(v)` yields `InitializeCounter v`, and
decoding tag 0 followed by a payload whose length is not 8 fails. -/
theorem unpack_tag0_exact_payload (v : Nat) (hv : v < 2 ^ 64)
    (rest : List Nat) (hlen : rest.length ≠ 8) :
    unpack (0 :: u64ToLeBytes v) = Except.ok (CounterInstruction.InitializeCounter v) ∧
    unpack (0 :: rest) = Except.error ProgramError.InvalidInstructionData := by
  constructor
  · simp [unpack, u64ToLeBytes_length, leBytes_roundtrip v hv]
  · simp [unpack, hlen]

/-- C3 witness: decoding `[0] ++ le64(300)` yields `InitializeCounter 300`
and decoding `[0, 1, 2, 3]` (3-byte payload) fails. -/
theorem unpack_tag0_exact_payload_witness :
    unpack (0 :: u64ToLeBytes 300) = Except.ok (CounterInstruction.InitializeCounter 300) ∧
    unpack [0, 1, 2, 3] = Except.error ProgramError.InvalidInstructionData :=
  unpack_tag0_exact_payload 300 (by norm_num) [1, 2, 3] (by decide)

/-- C4: incrementing an account whose recorded owner differs from the
calling program's identity fails with the program's owner-check error
(`IncorrectProgramId` in the source, the spec's `IncorrectOwner`) and
leaves every account, in particular the counter's data buffer, unchanged. -/
theorem increment_wrong_owner_rejected (pid : Nat) (acct : AccountInfo)
    (rest : List AccountInfo) (hown : acct.owner ≠ pid) :
    process_increment_counter pid (acct :: rest)
      = (Except.error ProgramError.IncorrectProgramId, acct :: rest) := by
  simp [process_increment_counter, hown]

/-- C4 witness: incrementing an account owned by 3 under program identity 2
is rejected with the data intact. -/
theorem increment_wrong_owner_rejected_witness :
    process_increment_counter 2
        [{ key := 5, owner := 3, lamports := 0, data := u64ToLeBytes 7 }]
      = (Except.error ProgramError.IncorrectProgramId,
         [{ key := 5, owner := 3, lamports := 0, data := u64ToLeBytes 7 }]) :=
  increment_wrong_owner_rejected 2
    { key := 5, owner := 3, lamports := 0, data := u64ToLeBytes 7 } [] (by decide)

/-- C5: incrementing a program-owned account holding `u64::MAX` fails with
the overflow error (`InvalidAccountData` in the source, the spec's
`Overflow`) and leaves the stored 8 bytes unchanged. -/
theorem increment_overflow_rejected (pid : Nat) (acct : AccountInfo)
    (rest : List AccountInfo) (hown : acct.owner = pid)
    (hdata : acct.data = u64ToLeBytes (2 ^ 64 - 1)) :
    process_increment_counter pid (acct :: rest)
      = (Except.error ProgramError.InvalidAccountData, acct :: rest) := by
  have hrt : leBytesToU64 (u64ToLeBytes 18446744073709551615) = 18446744073709551615 :=
    leBytes_roundtrip _ (by norm_num)
  have hov : ¬ (18446744073709551615 + 1 < 18446744073709551616) := by omega
  simp [process_increment_counter, hown, try_from_slice_counter, hdata,
        u64ToLeBytes_length, hrt, checked_add_u64, hov]

/-- C5 witness: incrementing a program-owned account storing `u64::MAX`
fails with `InvalidAccountData` and the bytes are untouched. -/
theorem increment_overflow_rejected_witness :
    process_increment_counter 1
        [{ key := 5, owner := 1, lamports := 0, data := u64ToLeBytes (2 ^ 64 - 1) }]
      = (Except.error ProgramError.InvalidAccountData,
         [{ key := 5, owner := 1, lamports := 0, data := u64ToLeBytes (2 ^ 64 - 1) }]) :=
  increment_overflow_rejected 1
    { key := 5, owner := 1, lamports := 0, data := u64ToLeBytes (2 ^ 64 - 1) } [] rfl rfl

/-- C6 (amended): the decoder fails on the empty buffer, on tag 0 with a
payload length other than 8, and on any tag of 2 or more — but all three
failure causes return one and the same error value,
`InvalidInstructionData`, rather than three distinct errors. -/
theorem unpack_failures_single_error :
    unpack [] = Except.error ProgramError.InvalidInstructionData ∧
    (∀ rest : List Nat, rest.length ≠ 8 →
      unpack (0 :: rest) = Except.error ProgramError.InvalidInstructionData) ∧
    (∀ (b : Nat) (rest : List Nat), 2 ≤ b →
      unpack (b :: rest) = Except.error ProgramError.InvalidInstructionData) := by
  refine ⟨rfl, ?_, ?_⟩
  · intro rest hlen
    simp [unpack, hlen]
  · intro b rest hb
    rcases b with _ | _ | n
    · omega
    · omega
    · rfl

/-- C6 witness: a 2-byte tag-0 payload and an unknown tag 5 both fail with
`InvalidInstructionData`. -/
theorem unpack_failures_single_error_witness :
    unpack [0, 1, 2] = Except.error ProgramError.InvalidInstructionData ∧
    unpack [5, 7] = Except.error ProgramError.InvalidInstructionData :=
  ⟨unpack_failures_single_error.2.1 [1, 2] (by decide),
   unpack_failures_single_error.2.2 5 [7] (by norm_num)⟩

/-- C6 counterexample: the three failure causes are not distinguished — the
empty buffer, a tag-0 buffer with a 7-byte payload, and an unknown tag 2
all return the identical error `InvalidInstructionData`. -/
theorem unpack_failure_causes_not_distinct :
    unpack [] = Except.error ProgramError.InvalidInstructionData ∧
    unpack [0, 9, 9, 9, 9, 9, 9, 9] = Except.error ProgramError.InvalidInstructionData ∧
    unpack [2] = Except.error ProgramError.InvalidInstructionData ∧
    unpack [] = unpack [2] ∧
    unpack [] = unpack [0, 9, 9, 9, 9, 9, 9, 9] :=
  ⟨rfl, rfl, rfl, rfl, rfl⟩

/-- C7: every buffer whose first byte is 1 decodes to `IncrementCounter`,
whatever the trailing bytes. -/
theorem unpack_tag1_increment (rest : List Nat) :
    unpack (1 :: rest) = Except.ok CounterInstruction.IncrementCounter := rfl

/-- C8: on a valid initialize buffer `[0] ++ le64(v)`, decode yields
`InitializeCounter v` and re-encoding that instruction reproduces the
buffer exactly (tag byte followed by the little-endian payload). -/
theorem pack_unpack_initialize (v : Nat) (hv : v < 2 ^ 64) :
    unpack (0 :: u64ToLeBytes v) = Except.ok (CounterInstruction.InitializeCounter v) ∧
    CounterInstruction.pack (CounterInstruction.InitializeCounter v) = 0 :: u64ToLeBytes v := by
  refine ⟨?_, rfl⟩
  simp [unpack, u64ToLeBytes_length, leBytes_roundtrip v hv]

/-- C8 witness: the buffer `[0] ++ le64(1000)` decodes to
`InitializeCounter 1000`, which re-encodes to the same buffer. -/
theorem pack_unpack_initialize_witness :
    unpack (0 :: u64ToLeBytes 1000) = Except.ok (CounterInstruction.InitializeCounter 1000) ∧
    CounterInstruction.pack (CounterInstruction.InitializeCounter 1000)
      = 0 :: u64ToLeBytes 1000 :=
  pack_unpack_initialize 1000 (by norm_num)

/-- C9: every initialize call (on a counter, payer and system-program
account list) issues exactly one `create_account` request, funded from the
payer's address, creating the counter's address, with the rent
calculator's `minimum_balance(8)` lamports, 8 bytes of space, and the
calling program's identity as owner. -/
theorem initialize_create_request_params (env : Env) (pid : Nat)
    (counter payer sys : AccountInfo) (rest : List AccountInfo) (v : Nat) :
    (process_initialize_counter env pid (counter :: payer :: sys :: rest) v).2.2
      = [create_account payer.key counter.key (env.minimum_balance 8) 8 pid] := by
  cases hinv : env.invoke_result
      (create_account payer.key counter.key (env.minimum_balance 8) 8 pid) with
  | none => simp [process_initialize_counter, hinv, serialize_counter_into]
  | some e => simp [process_initialize_counter, hinv]

/-- C10: the decoder is total — for every input byte sequence it returns
either a decoded instruction or the error `InvalidInstructionData`; no
input falls outside these two outcomes (both the first-byte split and the
8-byte payload conversion are guarded). -/
theorem unpack_total (input : List Nat) :
    (∃ i, unpack input = Except.ok i) ∨
      unpack input = Except.error ProgramError.InvalidInstructionData := by
  rcases input with _ | ⟨b, rest⟩
  · exact Or.inr rfl
  · rcases b with _ | _ | n
    · by_cases h : rest.length = 8
      · exact Or.inl ⟨CounterInstruction.InitializeCounter (leBytesToU64 rest),
          by simp [unpack, h]⟩
      · exact Or.inr (by simp [unpack, h])
    · exact Or.inl ⟨_, rfl⟩
    · exact Or.inr rfl

end CounterProgram
